import Mathlib

/-!
# legocerthub-backend: a verification development

Shallow embedding of parts of the backend (packages `acme`, `acme_accounts`,
`auth`, `dns01cloudflare` and `dns01acmedns`) and theorems about them.

Conventions of the embedding.

* A Go `string` is a Lean `String`; a `[]byte` is a `List Nat`.
* A Go `error` result is an `Option GoError` (`none` is the nil error).
* A Go pointer that may be nil is an `Option`.
* A Go slice is a `List`; the nil slice and the empty slice are both `[]`.
* Functions, types and constants that the embedded code calls but whose
  declarations are in other files are parameters of the embedding.
-/

set_option autoImplicit false

/-! ## Go runtime values shared by the packages -/

/-- Go error values.  A package-level error variable is compared by identity
and is a `sentinel`; an error value built at a call site (`errors.New`,
`fmt.Errorf`, an error of a library) is `dyn`. -/
inductive GoError where
  | sentinel (name : String)
  | dyn (msg : String)
  deriving DecidableEq

/-- Go `[]byte`. -/
abbrev Bytes := List Nat

/-- The outcome of Go code that may stop with a runtime panic: it finishes
with its results, or it panics. -/
inductive Run (α : Type) where
  | done (a : α)
  | panic (msg : String)
  deriving DecidableEq

/-- The panic of a nil pointer dereference. -/
def nilDereference {α : Type} : Run α :=
  .panic "runtime error: invalid memory address or nil pointer dereference"

/-! ## Package acme -/

namespace acme

/-- The fields of `rsa.PrivateKey`: the public modulus and the private
exponent, each a `*big.Int`, and the public exponent, an `int`. -/
structure RsaPrivateKey where
  N : Option Int
  E : Int
  D : Option Int
  deriving DecidableEq

/-- The field of `elliptic.CurveParams` read here. -/
structure CurveParams where
  Name : String
  deriving DecidableEq

/-- The fields of `ecdsa.PrivateKey`: the curve (`none` is a nil `Curve`, or
one whose `Params()` is nil), the public point and the private scalar, each a
`*big.Int`. -/
structure EcdsaPrivateKey where
  Curve : Option CurveParams
  X : Option Int
  Y : Option Int
  D : Option Int
  deriving DecidableEq

/-- Go `crypto.PrivateKey` is the empty interface: its dynamic value is nil,
a `*rsa.PrivateKey`, a `*ecdsa.PrivateKey`, or a value of some other type
(recorded by the name of that type).  Each of the two pointers may itself be
nil. -/
inductive PrivateKey where
  | nil
  | rsa (key : Option RsaPrivateKey)
  | ecdsa (key : Option EcdsaPrivateKey)
  | other (typeName : String)
  deriving DecidableEq

/-- AccountKey: the private key and the account identifier (`kid`). -/
structure AccountKey where
  Key : PrivateKey
  Kid : String
  deriving DecidableEq

/-- A P-256 key with its public point. -/
def sampleEcdsaKey : EcdsaPrivateKey := ⟨some ⟨"P-256"⟩, some 5, some 7, some 3⟩

/-- An RSA key. -/
def sampleRsaKey : RsaPrivateKey := ⟨some 3233, 17, some 413⟩

/-! ### Account responses -/

/-- Go `http.Header`, a `map[string][]string`, as an association list in
which the first pair with a key is that key's entry. -/
abbrev Header := List (String × List String)

/-- Go `http.Header.Get` for a key that is already in canonical form, as
"Location" is: the first value of the key, "" when the key is absent or has
no values. -/
def Header.Get (headers : Header) (key : String) : String :=
  match headers.lookup key with
  | some (v :: _) => v
  | _ => ""

/-- NewAccountPayload is the payload used to post to ACME newAccount. -/
structure NewAccountPayload where
  TosAgreed : Bool
  Contact : List String
  deriving DecidableEq

/-- UpdateAccountPayload is the payload used to update ACME accounts. -/
structure UpdateAccountPayload where
  Contact : List String
  deriving DecidableEq

/-- AcmeAccountResponse: the response to an account post or update.
`Location` is a `*string`. -/
structure AcmeAccountResponse where
  Contact : List String := []
  CreatedAt : String := ""
  Status : String := ""
  Location : Option String := none
  deriving DecidableEq

/-- Modelled from the spec: the declaration of `AcmeErrorResponse` is in
another file of the package; the spec describes it as a structured ACME error
record (type, detail and raw sub-errors). -/
structure AcmeErrorResponse where
  problemType : String
  detail : String
  subproblems : List String
  deriving DecidableEq

/-- What `unmarshalAccountResponse` calls outside this file: the two uses of
`json.Unmarshal` (into an `AcmeErrorResponse` and into an
`AcmeAccountResponse`) and the method `AcmeErrorResponse.Error`, which builds
the error value returned for a decoded error record. -/
structure Decoders where
  unmarshalError : Bytes → Except GoError AcmeErrorResponse
  unmarshalAccount : Bytes → Except GoError AcmeAccountResponse
  Error : AcmeErrorResponse → GoError

/-- Account response decoder:
`func unmarshalAccountResponse(bodyBytes []byte, headers http.Header)`. -/
def unmarshalAccountResponse (dec : Decoders) (bodyBytes : Bytes) (headers : Header) :
    AcmeAccountResponse × Option GoError :=
  -- try to decode an error
  match dec.unmarshalError bodyBytes with
  | .ok errorResponse =>
    -- return error if acme response was an error
    ({}, some (dec.Error errorResponse))
  | .error _ =>
    -- if error didn't decode, decode generally
    match dec.unmarshalAccount bodyBytes with
    | .error err => ({}, some err)
    | .ok response =>
      -- kid isn't part of the JSON response, add it from the header
      if headers.Get "Location" ≠ "" then
        ({ response with Location := some (headers.Get "Location") }, none)
      else
        ({ response with Location := none }, none)

/-- Go `strings.HasPrefix`. -/
def HasPrefix (s pre : String) : Bool :=
  decide (s.data.length ≥ pre.data.length) && decide (s.data.take pre.data.length = pre.data)

/-- Go `strings.TrimPrefix`: `s` without the leading `pre`, `s` itself when
it does not start with `pre`. -/
def TrimPrefix (s pre : String) : String :=
  if HasPrefix s pre then String.mk (s.data.drop pre.data.length) else s

/-- Email() returns an email address from the first string in the Contact
slice.  Any other contacts are discarded. -/
def AcmeAccountResponse.Email (response : AcmeAccountResponse) : String :=
  match response.Contact with
  | [] => ""
  | first :: _ => TrimPrefix first "mailto:"

/-! ### Signed posts -/

/-- The payload argument of `postToUrlSigned` (an `any` in Go) in the two
calls of this file. -/
inductive Payload where
  | newAccount (p : NewAccountPayload)
  | updateAccount (p : UpdateAccountPayload)
  deriving DecidableEq

/-- One call of `service.postToUrlSigned(payload, url, accountKey)`. -/
structure PostCall where
  payload : Payload
  url : String
  accountKey : AccountKey
  deriving DecidableEq

/-- The results of one call of `postToUrlSigned`. -/
structure PostResult where
  bodyBytes : Bytes
  headers : Header
  err : Option GoError
  deriving DecidableEq

/-- A computation of the package as the signed posts it performs:
it returns, or it performs a post and continues with the post's results.
`postToUrlSigned` is declared in another file; its behaviour is supplied
when the computation is run. -/
inductive Prog (α : Type) where
  | ret (a : α)
  | post (call : PostCall) (next : PostResult → Prog α)

/-- Runs a computation against a transport with state `σ` (nonce, network);
the result, the posts performed in order, and the final state. -/
def Prog.run {σ α : Type} (transport : σ → PostCall → PostResult × σ) :
    Prog α → σ → α × List PostCall × σ
  | .ret a, w => (a, [], w)
  | .post call next, w =>
    let r := transport w call
    let rest := (next r.1).run transport r.2
    (rest.1, call :: rest.2.1, rest.2.2)

/-- The part of the directory used here. -/
structure Directory where
  NewAccount : String
  deriving DecidableEq

/-- The fields of `Service` used here. -/
structure Service where
  dir : Directory
  dec : Decoders

/-- NewAccount posts a secure message to the NewAccount URL of the directory. -/
def Service.NewAccount (service : Service) (payload : NewAccountPayload)
    (privateKey : PrivateKey) : Prog (AcmeAccountResponse × Option GoError) :=
  -- Register account should never use kid, it must always use JWK
  let accountKey : AccountKey := { Key := privateKey, Kid := "" }
  -- post new-account
  .post ⟨.newAccount payload, service.dir.NewAccount, accountKey⟩ fun r =>
    if r.err ≠ none then .ret ({}, r.err) else
    -- unmarshal response
    let (response, err) := unmarshalAccountResponse service.dec r.bodyBytes r.headers
    if err ≠ none then .ret ({}, err) else
    .ret (response, none)

/-- UpdateAccount posts a secure message to the kid of the account. -/
def Service.UpdateAccount (service : Service) (payload : UpdateAccountPayload)
    (accountKey : AccountKey) : Prog (AcmeAccountResponse × Option GoError) :=
  -- post account update
  .post ⟨.updateAccount payload, accountKey.Kid, accountKey⟩ fun r =>
    if r.err ≠ none then .ret ({}, r.err) else
    -- unmarshal response
    let (response, err) := unmarshalAccountResponse service.dec r.bodyBytes r.headers
    if err ≠ none then .ret ({}, err) else
    .ret (response, none)

/-- An instance of the decoders: a body starting with byte 1 decodes as an
error record, a body starting with byte 2 as an account response. -/
def sampleDecoders : Decoders where
  unmarshalError := fun b =>
    match b with
    | 1 :: _ => .ok ⟨"urn:ietf:params:acme:error:malformed", "bad request", []⟩
    | _ => .error (GoError.dyn "json: not an error record")
  unmarshalAccount := fun b =>
    match b with
    | 2 :: _ => .ok { Contact := ["mailto:admin@example.com"], CreatedAt := "2023", Status := "valid" }
    | _ => .error (GoError.dyn "json: not an account")
  Error := fun r => GoError.dyn r.detail

/-- An instance of the service. -/
def sampleService : Service where
  dir := ⟨"https://ca.example/new-acct"⟩
  dec := sampleDecoders

/-- An instance of the transport, with the number of posts made as state: a
post to the empty URL fails, any other post is answered with the account body
and a Location header. -/
def sampleTransport (n : Nat) (call : PostCall) : PostResult × Nat :=
  if call.url = "" then (⟨[], [], some (GoError.dyn "unsupported protocol scheme")⟩, n + 1)
  else (⟨[2], [("Location", ["https://ca.example/acct/1"])], none⟩, n + 1)

end acme

/-! ## Package acme_accounts -/

namespace acme_accounts

/-- The fields of `Account` used here; the type is declared in another file
of the package. -/
structure Account where
  ID : Int
  Name : String
  Status : String
  AcceptedTos : Bool
  deriving DecidableEq

/-- The error variable `storage.ErrNoRecord`. -/
def ErrNoRecord : GoError := GoError.sentinel "storage.ErrNoRecord"

/-- The storage calls used here, each with the pair of results of the Go
method. -/
structure Storage where
  GetOneAccountById : Int → Account × Option GoError
  GetOneAccountByName : String → Account × Option GoError
  GetAllAccounts : List Account × Option GoError

/-- The fields of `Service` used here, and `validation.NameValid`, which is a
function of another package. -/
structure Service where
  storage : Storage
  NameValid : String → Bool

/-- nameValid returns true if the specified account name is acceptable and
false if it is not.  `accountId` is a `*int`. -/
def Service.nameValid (service : Service) (accountName : String) (accountId : Option Int) :
    Bool :=
  -- basic check
  if !service.NameValid accountName then false else
  -- make sure the name isn't already in use in storage
  let (account, err) := service.storage.GetOneAccountByName accountName
  if err = some ErrNoRecord then
    -- no rows means name is not in use (valid)
    true
  else if err ≠ none then
    -- any other error, invalid
    false
  else
  -- if the returned account is the account being edited, name valid
  if accountId ≠ none ∧ some account.ID = accountId then true else
  false

/-- One iteration of the loop of `GetAvailableAccounts`, on the slice and
`newIndex`, for index `i`. -/
def rewriteStep (st : List Account × Nat) (i : Nat) : List Account × Nat :=
  match st.1[i]? with
  | some a =>
    if a.Status = "valid" && a.AcceptedTos then (st.1.set st.2 a, st.2 + 1) else st
  | none => st

/-- GetAvailableAccounts returns a list of accounts that have status == valid
and have also accepted the ToS. -/
def Service.GetAvailableAccounts (service : Service) : List Account × Option GoError :=
  let (accounts, err) := service.storage.GetAllAccounts
  if err ≠ none then ([], err) else
  -- rewrite accounts in place with only valid accounts
  let (accounts, newIndex) := (List.range accounts.length).foldl rewriteStep (accounts, 0)
  -- truncate accounts
  (accounts.take newIndex, none)

/-- An instance of the storage: three accounts, of which "main" and "spare"
are valid with the ToS accepted. -/
def sampleStorage : Storage where
  GetOneAccountById := fun id =>
    if id = 1 then (⟨1, "main", "valid", true⟩, none) else (⟨0, "", "", false⟩, some ErrNoRecord)
  GetOneAccountByName := fun name =>
    if name = "main" then (⟨1, "main", "valid", true⟩, none)
    else if name = "locked" then (⟨0, "", "", false⟩, some (GoError.dyn "database is locked"))
    else (⟨0, "", "", false⟩, some ErrNoRecord)
  GetAllAccounts :=
    ([⟨1, "main", "valid", true⟩, ⟨2, "old", "deactivated", true⟩, ⟨3, "new", "valid", false⟩,
      ⟨4, "spare", "valid", true⟩], none)

/-- An instance of the service: a name is acceptable when it is not empty. -/
def sampleService : Service where
  storage := sampleStorage
  NameValid := fun name => name ≠ ""

/-- An instance of the storage whose queries fail. -/
def failingStorage : Storage where
  GetOneAccountById := fun _ => (⟨0, "", "", false⟩, some (GoError.dyn "database is locked"))
  GetOneAccountByName := fun _ => (⟨0, "", "", false⟩, some (GoError.dyn "database is locked"))
  GetAllAccounts := ([], some (GoError.dyn "database is locked"))

end acme_accounts

/-! ## Package datatypes -/

namespace datatypes

/-- Modelled from the spec: `datatypes.SafeMap` is declared in package
datatypes and the spec does not describe it, so the model follows the comments
at its call sites in session_manager.go: a map from string keys to values,
given by its lookup function, with `Add` ("check if session already exists"),
`DeleteKey` ("remove and check if trying to remove non-existent") and
`DeleteFunc` ("run func against sessions map"). -/
structure SafeMap (V : Type) where
  m : String → Option V

/-- The empty map of `NewSafeMap`. -/
def NewSafeMap {V : Type} : SafeMap V := ⟨fun _ => none⟩

/-- The error of `DeleteKey` for a key that is not in the map. -/
def errMapKeyDoesntExist : GoError := GoError.sentinel "datatypes.errMapKeyDoesntExist"

/-- Modelled from the spec: `SafeMap.Add` inserts the value under the key
when the key is new and reports false; when the key exists it leaves the map
as it is and reports true with the existing value. -/
def SafeMap.Add {V : Type} (sm : SafeMap V) (key : String) (value : V) :
    (Bool × V) × SafeMap V :=
  match sm.m key with
  | some existingValue => ((true, existingValue), sm)
  | none => ((false, value), ⟨fun k => if k = key then some value else sm.m k⟩)

/-- Modelled from the spec: `SafeMap.DeleteKey` removes the key, and returns
an error and leaves the map as it is when the key is not in the map. -/
def SafeMap.DeleteKey {V : Type} (sm : SafeMap V) (key : String) :
    Option GoError × SafeMap V :=
  match sm.m key with
  | some _ => (none, ⟨fun k => if k = key then none else sm.m k⟩)
  | none => (some errMapKeyDoesntExist, sm)

/-- Modelled from the spec: `SafeMap.DeleteFunc` removes every entry on which
the function returns true. -/
def SafeMap.DeleteFunc {V : Type} (sm : SafeMap V) (deleteFunc : String → V → Bool) :
    SafeMap V :=
  ⟨fun k =>
    match sm.m k with
    | some v => if deleteFunc k v then none else some v
    | none => none⟩

end datatypes

/-! ## Package auth -/

namespace auth

open datatypes

/-- The sixteen bytes of a `uuid.UUID`, as the 128-bit number they spell in
big-endian order. -/
structure UUID where
  val : Fin (2 ^ 128)
  deriving DecidableEq

/-- The lower-case hexadecimal digit of `n % 16`. -/
def hexDigit (n : Nat) : Char :=
  "0123456789abcdef".data.getD (n % 16) '0'

/-- The `digits` lowest hexadecimal digits of `v`, most significant first. -/
def hexOf (v digits : Nat) : List Char :=
  (List.range digits).reverse.map (fun i => hexDigit (v / 16 ^ i))

/-- The canonical form of `uuid.UUID.String`: 32 hexadecimal digits in groups
of 8, 4, 4, 4 and 12, separated by hyphens. -/
def UUID.String (u : UUID) : String :=
  String.mk (hexOf (u.val.val / 16 ^ 24) 8 ++ '-' :: hexOf (u.val.val / 16 ^ 20) 4 ++
    '-' :: hexOf (u.val.val / 16 ^ 16) 4 ++ '-' :: hexOf (u.val.val / 16 ^ 12) 4 ++
    '-' :: hexOf u.val.val 12)

/-- The fields of `sessionClaims` used here (the type is declared in another
file of the package): the subject and the expiry of the registered claims, as
unix seconds, and the session's UUID. -/
structure sessionClaims where
  Subject : String
  ExpiresAt : Int
  UUID : UUID
  deriving DecidableEq

/-- The error variables of session_manager.go. -/
def errInvalidUuid : GoError := GoError.sentinel "auth.errInvalidUuid"

/-- See `errInvalidUuid`. -/
def errAddExisting : GoError := GoError.sentinel "auth.errAddExisting"

/-- sessionManager stores and manages session data. -/
structure sessionManager where
  sessions : SafeMap sessionClaims

/-- newSessionManager creates a new sessionManager. -/
def newSessionManager : sessionManager := ⟨NewSafeMap⟩

/-- closeSubject deletes all sessions where the session's Subject is equal to
the specified sessionClaims' Subject. -/
def sessionManager.closeSubject (sm : sessionManager) (sc : sessionClaims) : sessionManager :=
  -- delete func for close subject
  let deleteFunc := fun (_ : String) (v : sessionClaims) => decide (v.Subject = sc.Subject)
  -- run func against sessions map
  ⟨sm.sessions.DeleteFunc deleteFunc⟩

/-- new adds the session to the map of open sessions.  If session already
exists an error is returned and all sessions for the specific subject (user)
are removed. -/
def sessionManager.new (sm : sessionManager) (session : sessionClaims) :
    Option GoError × sessionManager :=
  -- parse uuid to a sane string for map key
  let uuidString := session.UUID.String
  if uuidString = "" then (some errInvalidUuid, sm.closeSubject session) else
  -- check if session already exists
  let added := sm.sessions.Add uuidString session
  let sm : sessionManager := ⟨added.2⟩
  if added.1.1 then (some errAddExisting, sm.closeSubject session) else
  (none, sm)

/-- close removes the session from the map of open sessions.  If session
doesn't exist an error is returned and all sessions for the specific subject
(user) are removed. -/
def sessionManager.close (sm : sessionManager) (session : sessionClaims) :
    Option GoError × sessionManager :=
  -- parse uuid to a sane string for map key
  let uuidString := session.UUID.String
  if uuidString = "" then (some errInvalidUuid, sm.closeSubject session) else
  -- remove and check if trying to remove non-existent
  let deleted := sm.sessions.DeleteKey uuidString
  let sm : sessionManager := ⟨deleted.2⟩
  if deleted.1 ≠ none then (deleted.1, sm.closeSubject session) else
  (none, sm)

/-- refresh confirms the oldSession is present, removes it, and then adds the
new session in its place. -/
def sessionManager.refresh (sm : sessionManager) (oldSession newSession : sessionClaims) :
    Option GoError × sessionManager :=
  -- remove old session (error if doesn't exist, so this is validation)
  let closed := sm.close oldSession
  if closed.1 ≠ none then closed else
  -- add new session (error if already exists)
  let added := closed.2.new newSession
  if added.1 ≠ none then added else
  (none, added.2)

/-- Three sessions: two of alice, one of bob. -/
def aliceSession : sessionClaims := ⟨"alice", 1700000000, ⟨⟨1, by decide⟩⟩⟩

/-- See `aliceSession`. -/
def aliceSecond : sessionClaims := ⟨"alice", 1700000600, ⟨⟨2, by decide⟩⟩⟩

/-- See `aliceSession`. -/
def bobSession : sessionClaims := ⟨"bob", 1700000000, ⟨⟨3, by decide⟩⟩⟩

/-- A session of mallory that carries the UUID of bob's session. -/
def malloryReplay : sessionClaims := ⟨"mallory", 1700000900, ⟨⟨3, by decide⟩⟩⟩

/-- A session of carol that is not in the sample manager. -/
def carolStale : sessionClaims := ⟨"carol", 1690000000, ⟨⟨9, by decide⟩⟩⟩

/-- A further session of bob, with a UUID of its own. -/
def bobNext : sessionClaims := ⟨"bob", 1700003600, ⟨⟨10, by decide⟩⟩⟩

/-- A further session of alice, with a UUID of its own. -/
def aliceNext : sessionClaims := ⟨"alice", 1700003600, ⟨⟨11, by decide⟩⟩⟩

/-- A manager holding the two sessions of alice and the session of bob. -/
def sampleManager : sessionManager :=
  (((newSessionManager.new aliceSession).2.new aliceSecond).2.new bobSession).2

end auth

/-! ## Package dns01cloudflare -/

namespace dns01cloudflare

/-- The error variable of the package. -/
def errServiceComponent : GoError := GoError.sentinel "dns01cloudflare.errServiceComponent"

/-- A `zap.SugaredLogger`, identified by a name. -/
structure Logger where
  name : String
  deriving DecidableEq

/-- A `httpclient.Client`, identified by a name. -/
structure HttpClient where
  name : String
  deriving DecidableEq

/-- App interface is for connecting to the main app: the results of its two
methods, each a pointer. -/
structure App where
  GetLogger : Option Logger
  GetHttpClient : Option HttpClient
  deriving DecidableEq

/-- The fields of `cloudflare.API` read here. -/
structure API where
  APIKey : String := ""
  APIUserServiceKey : String := ""
  APIToken : String := ""
  deriving DecidableEq

/-- provider Service struct; `new(Service)` is the record of nil pointers and
the nil map. -/
structure Service where
  logger : Option Logger := none
  httpClient : Option HttpClient := none
  cloudflareApi : Option API := none
  domainIDs : List (String × String) := []
  deriving DecidableEq

/-- The field of the `Account` part of `Config` used here; `GlobalApiKey` is a
pointer to an `output.RedactedString` and references a value. -/
structure AccountConfig where
  GlobalApiKey : String
  deriving DecidableEq

/-- The fields of `Config` used here (the type is declared in another file of
the package): the domains, the account (a pointer) and the API token (a
pointer to an `output.RedactedString`). -/
structure Config where
  Doms : List String
  Account : Option AccountConfig
  ApiToken : Option String
  deriving DecidableEq

/-- What the code calls outside this file: `output.RedactString`, the method
`Redacted` of `output.RedactedString`, and the method
`configureCloudflareAPI`, which works on the service under construction and
returns an error. -/
structure Env where
  RedactString : String → String
  Redacted : String → String
  configureCloudflareAPI : Service → Config → Service × Option GoError

/-- apiIdentifier selects either the APIKey, APIUserServiceKey, or APIToken
(depending on which is in use for the API instance) and returns it. -/
def Service.apiIdentifier (service : Service) : Run String :=
  match service.cloudflareApi with
  | none => nilDereference
  | some api =>
    -- return whichever is present
    if api.APIToken.length > 0 then .done api.APIToken
    else if api.APIKey.length > 0 then .done api.APIKey
    else if api.APIUserServiceKey.length > 0 then .done api.APIUserServiceKey
    -- none present, return unknown
    else .done "unknown"

/-- redactedApiIdentifier: the API identifier, redacted. -/
def Service.redactedApiIdentifier (env : Env) (service : Service) : Run String :=
  match service.apiIdentifier with
  | .panic msg => .panic msg
  | .done identifier => .done (env.RedactString identifier)

/-- NewService creates a new instance of the Cloudflare provider service.
`cfg` is a pointer. -/
def NewService (env : Env) (app : App) (cfg : Option Config) :
    Run (Option Service × Option GoError) :=
  match cfg with
  -- if no config, error
  | none => .done (none, some errServiceComponent)
  | some cfg =>
    let service : Service := {}
    -- logger
    let service := { service with logger := app.GetLogger }
    if service.logger = none then .done (none, some errServiceComponent) else
    -- http client for api calls
    let service := { service with httpClient := app.GetHttpClient }
    -- make map for domains
    let service := { service with domainIDs := [] }
    -- cloudflare api
    let configured := env.configureCloudflareAPI service cfg
    let service := configured.1
    if configured.2 ≠ none then .done (none, configured.2) else
    -- debug log configured domains
    match service.redactedApiIdentifier env with
    | .panic msg => .panic msg
    | .done _ =>
      if service.logger = none then nilDereference else
      .done (some service, none)

/-- The first statement of `UpdateService`: if form submitted with redacted
info, ensure unredacted is submitted to new service.  The result is the
config that `cfg` points to afterwards. -/
def Service.restoreRedacted (env : Env) (service : Service) (cfg : Config) : Run Config :=
  let viaToken : Run Config :=
    match cfg.ApiToken with
    | none => .done cfg
    | some token =>
      match service.redactedApiIdentifier env with
      | .panic msg => .panic msg
      | .done redacted =>
        if env.Redacted token = redacted then
          match service.apiIdentifier with
          | .panic msg => .panic msg
          | .done identifier => .done { cfg with ApiToken := some identifier }
        else .done cfg
  match cfg.Account with
  | none => viaToken
  | some account =>
    match service.redactedApiIdentifier env with
    | .panic msg => .panic msg
    | .done redacted =>
      if env.Redacted account.GlobalApiKey = redacted then
        match service.apiIdentifier with
        | .panic msg => .panic msg
        | .done identifier =>
          .done { cfg with Account := some { account with GlobalApiKey := identifier } }
      else viaToken

/-- Update Service updates the Service to use the new config.  The results
are the returned error, `*service` afterwards and `*cfg` afterwards. -/
def Service.UpdateService (env : Env) (service : Service) (app : App) (cfg : Option Config) :
    Run (Option GoError × Service × Config) :=
  match cfg with
  | none => nilDereference
  | some cfg =>
    match service.restoreRedacted env cfg with
    | .panic msg => .panic msg
    | .done cfg =>
      -- don't need to do anything with "old" Service, just set a new one
      match NewService env app (some cfg) with
      | .panic msg => .panic msg
      | .done (newServ, err) =>
        if err ≠ none then .done (err, service, cfg) else
        -- set content of old pointer so anything with the pointer calls the
        -- updated service
        match newServ with
        | none => nilDereference
        | some newServ => .done (none, newServ, cfg)

/-- An instance of `output.RedactString`: the first and the last character
with asterisks between them. -/
def sampleRedactString (s : String) : String :=
  match s.data with
  | [] => "***"
  | c :: cs => String.mk [c, '*', '*', '*', (c :: cs).getLast (by simp)]

/-- An instance of the environment: the API is built from the API token of
the config, else from the global API key of its account; a config with
neither, or with an empty credential, is an error. -/
def sampleEnv : Env where
  RedactString := sampleRedactString
  Redacted := sampleRedactString
  configureCloudflareAPI := fun service cfg =>
    match cfg.ApiToken, cfg.Account with
    | some token, _ =>
      if token = "" then (service, some (GoError.dyn "invalid credentials: API Token must not be empty"))
      else ({ service with cloudflareApi := some { APIToken := token } }, none)
    | none, some account =>
      if account.GlobalApiKey = "" then
        (service, some (GoError.dyn "invalid credentials: key & email must not be empty"))
      else ({ service with cloudflareApi := some { APIKey := account.GlobalApiKey } }, none)
    | none, none => (service, some (GoError.dyn "cloudflare: no credentials"))

/-- An instance of the app. -/
def sampleApp : App := ⟨some ⟨"app-logger"⟩, some ⟨"app-client"⟩⟩

/-- A config as a form submits it with redacted info: the API token is the
redacted form of the token of `sampleService`. -/
def redactedConfig : Config := ⟨["example.com"], none, some "t***a"⟩

/-- A config as a form submits it with a redacted global API key (and a
redacted API token as well). -/
def redactedAccountConfig : Config := ⟨["example.com"], some ⟨"t***a"⟩, some "t***a"⟩

/-- A config with a new API token. -/
def freshConfig : Config := ⟨["example.org"], none, some "tok-77c2d0"⟩

/-- A config without credentials. -/
def emptyConfig : Config := ⟨["example.org"], none, none⟩

/-- A provider instance in use: it has its API token and a cached zone id. -/
def sampleService : Service where
  logger := some ⟨"old-logger"⟩
  httpClient := some ⟨"old-client"⟩
  cloudflareApi := some { APIToken := "tok-4f1e9a" }
  domainIDs := [("example.com", "zone-17")]

end dns01cloudflare

/-! ## Package dns01acmedns -/

namespace dns01acmedns

/-- The error variable of the package. -/
def errServiceComponent : GoError := GoError.sentinel "dns01acmedns.errServiceComponent"

/-- A `zap.SugaredLogger`, identified by a name. -/
structure Logger where
  name : String
  deriving DecidableEq

/-- A `httpclient.Client`, identified by a name. -/
structure HttpClient where
  name : String
  deriving DecidableEq

/-- App interface is for connecting to the main app: the results of its two
methods, each a pointer. -/
structure App where
  GetLogger : Option Logger
  GetHttpClient : Option HttpClient
  deriving DecidableEq

/-- An acme-dns resource; the type is declared in another file of the
package and its fields are not read here. -/
structure acmeDnsResource where
  RealDomain : String
  FullDomain : String
  Username : String
  Password : String
  deriving DecidableEq

/-- provider Service struct. -/
structure Service where
  logger : Option Logger := none
  httpClient : Option HttpClient := none
  domains : List String := []
  acmeDnsAddress : String := ""
  acmeDnsResources : List acmeDnsResource := []
  deriving DecidableEq

/-- Configuration options; `HostAddress` is a `*string`. -/
structure Config where
  ID : Int
  Tag : String
  Domains : List String
  HostAddress : Option String
  Resources : List acmeDnsResource
  deriving DecidableEq

/-- NewService creates a new service.  `cfg` is a pointer. -/
def NewService (app : App) (cfg : Option Config) : Run (Option Service × Option GoError) :=
  match cfg with
  -- if no config or no domains, error
  | none => .done (none, some errServiceComponent)
  | some cfg =>
    if cfg.Domains.length ≤ 0 then .done (none, some errServiceComponent) else
    let service : Service := {}
    -- logger
    let service := { service with logger := app.GetLogger }
    if service.logger = none then .done (none, some errServiceComponent) else
    -- http client
    let service := { service with httpClient := app.GetHttpClient }
    if service.httpClient = none then .done (none, some errServiceComponent) else
    -- set supported domains from config
    let service := { service with domains := cfg.Domains }
    -- acme-dns host address
    match cfg.HostAddress with
    | none => nilDereference
    | some hostAddress =>
      let service := { service with acmeDnsAddress := hostAddress }
      -- acme-dns resources that will be updated
      let service := { service with acmeDnsResources := cfg.Resources }
      .done (some service, none)

/-- An instance of the app. -/
def sampleApp : App := ⟨some ⟨"app-logger"⟩, some ⟨"app-client"⟩⟩

/-- A config as read from a file that gives the domains and no
`acme_dns_address`. -/
def configWithoutAddress : Config := ⟨0, "", ["example.com"], none, []⟩

/-- A complete config. -/
def sampleConfig : Config :=
  ⟨1, "acme-dns", ["example.com", "example.org"], some "https://auth.acme-dns.io",
    [⟨"example.com", "d420c923.auth.acme-dns.io", "user", "secret"⟩]⟩

end dns01acmedns

/-! ## Theorems: package acme -/

namespace acme

/-- The run of a computation that posts once and then returns. -/
theorem run_post_ret {σ α : Type} (transport : σ → PostCall → PostResult × σ)
    (call : PostCall) (f : PostResult → α) (w : σ) :
    (Prog.post call (fun r => Prog.ret (f r))).run transport w =
      (f (transport w call).1, [call], (transport w call).2) := rfl

/-- NewAccount as one post followed by a pure function of the post's results. -/
theorem NewAccount_eq (service : Service) (payload : NewAccountPayload)
    (privateKey : PrivateKey) :
    service.NewAccount payload privateKey =
      Prog.post ⟨.newAccount payload, service.dir.NewAccount, ⟨privateKey, ""⟩⟩
        (fun r => Prog.ret
          (if r.err ≠ none then ({}, r.err)
           else if (unmarshalAccountResponse service.dec r.bodyBytes r.headers).2 ≠ none then
             ({}, (unmarshalAccountResponse service.dec r.bodyBytes r.headers).2)
           else ((unmarshalAccountResponse service.dec r.bodyBytes r.headers).1, none))) := by
  unfold Service.NewAccount
  dsimp only
  congr 1
  funext r
  split_ifs <;> simp_all

/-- UpdateAccount as one post followed by a pure function of the post's
results. -/
theorem UpdateAccount_eq (service : Service) (payload : UpdateAccountPayload)
    (accountKey : AccountKey) :
    service.UpdateAccount payload accountKey =
      Prog.post ⟨.updateAccount payload, accountKey.Kid, accountKey⟩
        (fun r => Prog.ret
          (if r.err ≠ none then ({}, r.err)
           else if (unmarshalAccountResponse service.dec r.bodyBytes r.headers).2 ≠ none then
             ({}, (unmarshalAccountResponse service.dec r.bodyBytes r.headers).2)
           else ((unmarshalAccountResponse service.dec r.bodyBytes r.headers).1, none))) := by
  unfold Service.UpdateAccount
  dsimp only
  congr 1
  funext r
  split_ifs <;> simp_all

/-- C2: for every payload and private key, against every transport and from
every state, `Service.NewAccount` performs exactly one signed post; the post
goes to the directory's NewAccount URL and is signed with the AccountKey
holding the given private key and the empty Kid; and if that post returns an
error, NewAccount returns that error with the zero-value response. -/
theorem NewAccount_single_jwk_post {σ : Type} (service : Service)
    (payload : NewAccountPayload) (privateKey : PrivateKey)
    (transport : σ → PostCall → PostResult × σ) (w : σ) :
    ((service.NewAccount payload privateKey).run transport w).2.1 =
      [⟨.newAccount payload, service.dir.NewAccount, ⟨privateKey, ""⟩⟩] ∧
    ∀ e, (transport w ⟨.newAccount payload, service.dir.NewAccount,
        ⟨privateKey, ""⟩⟩).1.err = some e →
      ((service.NewAccount payload privateKey).run transport w).1 = ({}, some e) := by
  rw [NewAccount_eq, run_post_ret]
  refine ⟨rfl, ?_⟩
  intro e he
  simp [he]

/-- Witness of C2: a registration against the sample transport, and one
whose directory has an empty NewAccount URL, which the transport refuses. -/
theorem NewAccount_single_jwk_post_witness :
    ((sampleService.NewAccount ⟨true, ["mailto:a@b.c"]⟩ (.ecdsa (some sampleEcdsaKey))).run
        sampleTransport 0).2.1 =
      [⟨.newAccount ⟨true, ["mailto:a@b.c"]⟩, "https://ca.example/new-acct",
        ⟨.ecdsa (some sampleEcdsaKey), ""⟩⟩] ∧
    (((⟨⟨""⟩, sampleDecoders⟩ : Service).NewAccount ⟨true, []⟩ .nil).run
        sampleTransport 0).1 = ({}, some (GoError.dyn "unsupported protocol scheme")) :=
  ⟨(NewAccount_single_jwk_post sampleService ⟨true, ["mailto:a@b.c"]⟩
      (.ecdsa (some sampleEcdsaKey)) sampleTransport 0).1,
   (NewAccount_single_jwk_post ⟨⟨""⟩, sampleDecoders⟩ ⟨true, []⟩ .nil sampleTransport 0).2
      _ rfl⟩

/-- C3: when `unmarshalAccountResponse` succeeds, the response's Location
points to the first value of the "Location" header if that value is not
empty, and is nil if the header is absent, has no value or has an empty first
value; and with any other headers the decoding succeeds too, with the same
Contact, CreatedAt and Status. -/
theorem unmarshalAccountResponse_location (dec : Decoders) (bodyBytes : Bytes)
    (headers : Header)
    (hok : (unmarshalAccountResponse dec bodyBytes headers).2 = none) :
    (∀ v vs, headers.lookup "Location" = some (v :: vs) → v ≠ "" →
      (unmarshalAccountResponse dec bodyBytes headers).1.Location = some v) ∧
    ((headers.lookup "Location" = none ∨ headers.lookup "Location" = some [] ∨
        ∃ vs, headers.lookup "Location" = some ("" :: vs)) →
      (unmarshalAccountResponse dec bodyBytes headers).1.Location = none) ∧
    (∀ headers2 : Header,
      (unmarshalAccountResponse dec bodyBytes headers2).2 = none ∧
      (unmarshalAccountResponse dec bodyBytes headers2).1.Contact =
        (unmarshalAccountResponse dec bodyBytes headers).1.Contact ∧
      (unmarshalAccountResponse dec bodyBytes headers2).1.CreatedAt =
        (unmarshalAccountResponse dec bodyBytes headers).1.CreatedAt ∧
      (unmarshalAccountResponse dec bodyBytes headers2).1.Status =
        (unmarshalAccountResponse dec bodyBytes headers).1.Status) := by
  unfold unmarshalAccountResponse at hok ⊢
  cases he : dec.unmarshalError bodyBytes with
  | ok r => simp [he] at hok
  | error e =>
    cases ha : dec.unmarshalAccount bodyBytes with
    | error e2 => simp [he, ha] at hok
    | ok a =>
      refine ⟨?_, ?_, ?_⟩
      · intro v vs hl hv
        simp [Header.Get, hl, hv]
      · rintro (hl | hl | ⟨vs, hl⟩) <;> simp [Header.Get, hl]
      · intro headers2
        simp only []
        refine ⟨?_, ?_, ?_, ?_⟩ <;> split_ifs <;> rfl

/-- Witness of C3 at the sample account body with a Location header. -/
theorem unmarshalAccountResponse_location_witness :
    (∀ v vs, List.lookup "Location" [("Location", ["https://ca.example/acct/1"])] =
        some (v :: vs) → v ≠ "" →
      (unmarshalAccountResponse sampleDecoders [2]
        [("Location", ["https://ca.example/acct/1"])]).1.Location = some v) ∧
    ((List.lookup "Location" [("Location", ["https://ca.example/acct/1"])] = none ∨
        List.lookup "Location" [("Location", ["https://ca.example/acct/1"])] = some [] ∨
        ∃ vs, List.lookup "Location" [("Location", ["https://ca.example/acct/1"])] =
          some ("" :: vs)) →
      (unmarshalAccountResponse sampleDecoders [2]
        [("Location", ["https://ca.example/acct/1"])]).1.Location = none) ∧
    (∀ headers2 : Header,
      (unmarshalAccountResponse sampleDecoders [2] headers2).2 = none ∧
      (unmarshalAccountResponse sampleDecoders [2] headers2).1.Contact =
        (unmarshalAccountResponse sampleDecoders [2]
          [("Location", ["https://ca.example/acct/1"])]).1.Contact ∧
      (unmarshalAccountResponse sampleDecoders [2] headers2).1.CreatedAt =
        (unmarshalAccountResponse sampleDecoders [2]
          [("Location", ["https://ca.example/acct/1"])]).1.CreatedAt ∧
      (unmarshalAccountResponse sampleDecoders [2] headers2).1.Status =
        (unmarshalAccountResponse sampleDecoders [2]
          [("Location", ["https://ca.example/acct/1"])]).1.Status) :=
  unmarshalAccountResponse_location sampleDecoders [2]
    [("Location", ["https://ca.example/acct/1"])] (by decide)

/-- C4: `unmarshalAccountResponse` tries the error decoding first.  For every
body that decodes as an error record it returns, whatever the headers, the
zero-value response with the error built from that record; it returns a nil
error only when the body fails to decode as an error record and decodes as an
account response; and whenever it returns a non-nil error the response is the
zero value. -/
theorem unmarshalAccountResponse_error_first (dec : Decoders) (bodyBytes : Bytes)
    (headers : Header) :
    (∀ r, dec.unmarshalError bodyBytes = .ok r →
      unmarshalAccountResponse dec bodyBytes headers = ({}, some (dec.Error r))) ∧
    ((unmarshalAccountResponse dec bodyBytes headers).2 = none →
      (∃ e, dec.unmarshalError bodyBytes = .error e) ∧
      ∃ a, dec.unmarshalAccount bodyBytes = .ok a) ∧
    ((unmarshalAccountResponse dec bodyBytes headers).2 ≠ none →
      (unmarshalAccountResponse dec bodyBytes headers).1 = {}) := by
  unfold unmarshalAccountResponse
  cases he : dec.unmarshalError bodyBytes with
  | ok r => simp
  | error e =>
    cases ha : dec.unmarshalAccount bodyBytes with
    | error e2 => simp
    | ok a =>
      refine ⟨by simp, by simp, ?_⟩
      simp only []
      split_ifs <;> simp

/-- Witness of C4: an error body with a Location header, the account body,
and a body that decodes as neither. -/
theorem unmarshalAccountResponse_error_first_witness :
    unmarshalAccountResponse sampleDecoders [1] [("Location", ["https://ca.example/acct/1"])] =
      ({}, some (GoError.dyn "bad request")) ∧
    ((∃ e, sampleDecoders.unmarshalError [2] = .error e) ∧
      ∃ a, sampleDecoders.unmarshalAccount [2] = .ok a) ∧
    (unmarshalAccountResponse sampleDecoders [3] []).1 = {} :=
  ⟨(unmarshalAccountResponse_error_first sampleDecoders [1]
      [("Location", ["https://ca.example/acct/1"])]).1 _ rfl,
   (unmarshalAccountResponse_error_first sampleDecoders [2] []).2.1 (by decide),
   (unmarshalAccountResponse_error_first sampleDecoders [3] []).2.2 (by decide)⟩

/-- C5: for every payload and AccountKey, against every transport and from
every state, `Service.UpdateAccount` performs exactly one signed post, to the
URL `accountKey.Kid` and signed with the given accountKey unchanged; if the
post fails it returns the post's error with the zero-value response, if the
decoding of the response fails it returns the decoder's error with the
zero-value response, and otherwise it returns the decoded response. -/
theorem UpdateAccount_single_kid_post {σ : Type} (service : Service)
    (payload : UpdateAccountPayload) (accountKey : AccountKey)
    (transport : σ → PostCall → PostResult × σ) (w : σ) :
    ((service.UpdateAccount payload accountKey).run transport w).2.1 =
      [⟨.updateAccount payload, accountKey.Kid, accountKey⟩] ∧
    (∀ e, (transport w ⟨.updateAccount payload, accountKey.Kid, accountKey⟩).1.err = some e →
      ((service.UpdateAccount payload accountKey).run transport w).1 = ({}, some e)) ∧
    ((transport w ⟨.updateAccount payload, accountKey.Kid, accountKey⟩).1.err = none →
      (∀ e, (unmarshalAccountResponse service.dec
            (transport w ⟨.updateAccount payload, accountKey.Kid, accountKey⟩).1.bodyBytes
            (transport w ⟨.updateAccount payload, accountKey.Kid, accountKey⟩).1.headers).2 =
          some e →
        ((service.UpdateAccount payload accountKey).run transport w).1 = ({}, some e)) ∧
      ((unmarshalAccountResponse service.dec
            (transport w ⟨.updateAccount payload, accountKey.Kid, accountKey⟩).1.bodyBytes
            (transport w ⟨.updateAccount payload, accountKey.Kid, accountKey⟩).1.headers).2 =
          none →
        ((service.UpdateAccount payload accountKey).run transport w).1 =
          ((unmarshalAccountResponse service.dec
            (transport w ⟨.updateAccount payload, accountKey.Kid, accountKey⟩).1.bodyBytes
            (transport w ⟨.updateAccount payload, accountKey.Kid, accountKey⟩).1.headers).1,
           none))) := by
  rw [UpdateAccount_eq, run_post_ret]
  refine ⟨rfl, ?_, ?_⟩
  · intro e he
    simp [he]
  · intro hn
    refine ⟨?_, ?_⟩
    · intro e he
      simp [hn, he]
    · intro he
      simp [hn, he]

/-- Witness of C5: an update without a kid (the post fails) and an update of
a registered account (the response is decoded). -/
theorem UpdateAccount_single_kid_post_witness :
    ((sampleService.UpdateAccount ⟨["mailto:a@b.c"]⟩ ⟨.nil, ""⟩).run sampleTransport 0).1 =
      ({}, some (GoError.dyn "unsupported protocol scheme")) ∧
    ((sampleService.UpdateAccount ⟨["mailto:a@b.c"]⟩
        ⟨.rsa (some sampleRsaKey), "https://ca.example/acct/1"⟩).run sampleTransport 0).1 =
      ((unmarshalAccountResponse sampleDecoders [2]
        [("Location", ["https://ca.example/acct/1"])]).1, none) :=
  ⟨(UpdateAccount_single_kid_post sampleService ⟨["mailto:a@b.c"]⟩ ⟨.nil, ""⟩
      sampleTransport 0).2.1 _ rfl,
   ((UpdateAccount_single_kid_post sampleService ⟨["mailto:a@b.c"]⟩
      ⟨.rsa (some sampleRsaKey), "https://ca.example/acct/1"⟩ sampleTransport 0).2.2 rfl).2
      (by decide)⟩

/-- HasPrefix holds of a string that starts with the prefix. -/
theorem HasPrefix_append (pre t : String) : HasPrefix (pre ++ t) pre = true := by
  simp [HasPrefix, String.data_append]

/-- A string with the prefix is the prefix followed by the rest. -/
theorem eq_append_of_HasPrefix (s pre : String) (h : HasPrefix s pre = true) :
    s = pre ++ String.mk (s.data.drop pre.data.length) := by
  simp only [HasPrefix, Bool.and_eq_true, decide_eq_true_eq] at h
  apply String.ext
  rw [String.data_append]
  conv_lhs => rw [← List.take_append_drop pre.data.length s.data]
  rw [h.2]

/-- TrimPrefix removes the prefix once. -/
theorem TrimPrefix_append (pre t : String) : TrimPrefix (pre ++ t) pre = t := by
  simp [TrimPrefix, HasPrefix_append, String.data_append]

/-- C7: `Email()` is the empty string when Contact is empty; otherwise it is
the first contact with one leading "mailto:" removed if the first contact
starts with it, and the first contact unchanged if it does not; and it is the
same for two responses with the same first contact. -/
theorem Email_first_contact (response : AcmeAccountResponse) :
    (response.Contact = [] → response.Email = "") ∧
    (∀ first rest, response.Contact = first :: rest →
      (∀ t, first = "mailto:" ++ t → response.Email = t) ∧
      ((∀ t, first ≠ "mailto:" ++ t) → response.Email = first)) ∧
    (∀ other : AcmeAccountResponse, other.Contact.head? = response.Contact.head? →
      other.Email = response.Email) := by
  refine ⟨?_, ?_, ?_⟩
  · intro h
    simp [AcmeAccountResponse.Email, h]
  · intro first rest h
    refine ⟨?_, ?_⟩
    · intro t ht
      simp only [AcmeAccountResponse.Email, h, ht]
      exact TrimPrefix_append _ _
    · intro hno
      simp only [AcmeAccountResponse.Email, h, TrimPrefix]
      split_ifs with hp
      · exact absurd (eq_append_of_HasPrefix _ _ hp) (hno _)
      · rfl
  · intro other h
    unfold AcmeAccountResponse.Email
    cases h1 : other.Contact <;> cases h2 : response.Contact <;> simp_all

/-- Witness of C7: no contact, a mailto contact followed by another, and a
contact without the prefix. -/
theorem Email_first_contact_witness :
    ({} : AcmeAccountResponse).Email = "" ∧
    ({ Contact := ["mailto:mailto:a@b.c", "mailto:x@y.z"] } : AcmeAccountResponse).Email =
      "mailto:a@b.c" ∧
    ({ Contact := ["tel:+1"] } : AcmeAccountResponse).Email = "tel:+1" :=
  ⟨(Email_first_contact {}).1 rfl,
   ((Email_first_contact { Contact := ["mailto:mailto:a@b.c", "mailto:x@y.z"] }).2.1
      _ _ rfl).1 _ (by decide),
   ((Email_first_contact { Contact := ["tel:+1"] }).2.1 _ _ rfl).2 (by
      intro t ht
      have h := congrArg (fun s : String => s.data.take 1) ht
      simp [String.data_append] at h)⟩

end acme

/-! ## Theorems: package acme_accounts -/

namespace acme_accounts

/-- The loop of `GetAvailableAccounts` after `k` iterations: the slice starts
with the retained accounts among the first `k`, in their order, continues with
`k` minus that many stale cells, and ends with the accounts not yet visited;
`newIndex` is the number of retained accounts. -/
theorem rewrite_loop (orig : List Account) (k : Nat) (hk : k ≤ orig.length) :
    ∃ junk : List Account,
      (List.range k).foldl rewriteStep (orig, 0) =
        ((orig.take k).filter (fun a => a.Status = "valid" && a.AcceptedTos) ++ junk ++
            orig.drop k,
          ((orig.take k).filter (fun a => a.Status = "valid" && a.AcceptedTos)).length) ∧
      ((orig.take k).filter (fun a => a.Status = "valid" && a.AcceptedTos)).length +
        junk.length = k := by
  induction k with
  | zero => exact ⟨[], by simp⟩
  | succ k ih =>
    have hlt : k < orig.length := hk
    obtain ⟨junk, hfold, hlen⟩ := ih (Nat.le_of_lt hlt)
    have hdrop : orig.drop k = orig[k] :: orig.drop (k + 1) := List.drop_eq_getElem_cons hlt
    have htake : orig.take (k + 1) = orig.take k ++ [orig[k]] := by
      rw [List.take_succ, List.getElem?_eq_getElem hlt]
      rfl
    have hget : ((orig.take k).filter (fun a => a.Status = "valid" && a.AcceptedTos) ++ junk ++
        orig.drop k)[k]? = some orig[k] := by
      rw [List.getElem?_append_right (by simp; omega), hdrop]
      have : k - ((orig.take k).filter
          (fun a => a.Status = "valid" && a.AcceptedTos) ++ junk).length = 0 := by
        simp; omega
      rw [this]
      simp
    rw [List.range_succ, List.foldl_append, hfold]
    simp only [List.foldl_cons, List.foldl_nil, rewriteStep, hget, htake, List.filter_append]
    by_cases hp : (decide (orig[k].Status = "valid") && orig[k].AcceptedTos) = true
    · simp only [hp, if_true, List.filter_cons, List.filter_nil]
      cases junk with
      | nil =>
        refine ⟨[], ?_, by simp at hlen ⊢; omega⟩
        rw [hdrop]
        simp [-List.getElem_cons_drop]
      | cons x js =>
        refine ⟨js ++ [orig[k]], ?_, by simp at hlen ⊢; omega⟩
        rw [hdrop]
        simp
    · simp only [hp, if_false, List.filter_cons, List.filter_nil, List.append_nil]
      refine ⟨junk ++ [orig[k]], ?_, by simp at hlen ⊢; omega⟩
      rw [hdrop]
      simp

/-- C8: for every list of accounts that storage returns without an error,
`GetAvailableAccounts` returns, with a nil error, exactly the accounts of that
list with Status "valid" and AcceptedTos true, in their order and unmodified
(the in-place rewrite is the stable filter); when storage returns an error it
returns the nil list and that error. -/
theorem GetAvailableAccounts_filter (service : Service) :
    (service.storage.GetAllAccounts.2 = none →
      service.GetAvailableAccounts =
        (service.storage.GetAllAccounts.1.filter
          (fun a => a.Status = "valid" && a.AcceptedTos), none)) ∧
    (∀ e, service.storage.GetAllAccounts.2 = some e →
      service.GetAvailableAccounts = ([], some e)) := by
  unfold Service.GetAvailableAccounts
  refine ⟨?_, ?_⟩
  · intro h
    obtain ⟨junk, hfold, _⟩ :=
      rewrite_loop service.storage.GetAllAccounts.1 _ (Nat.le_refl _)
    simp only [h, ne_eq, not_true_eq_false, if_false, hfold, List.take_length, List.drop_length,
      List.append_nil]
    rw [List.take_left]
  · intro e h
    simp [h]

/-- Witness of C8 at the sample storage and at a storage that fails. -/
theorem GetAvailableAccounts_filter_witness :
    sampleService.GetAvailableAccounts =
      (sampleStorage.GetAllAccounts.1.filter
        (fun a => a.Status = "valid" && a.AcceptedTos), none) ∧
    (⟨failingStorage, fun _ => true⟩ : Service).GetAvailableAccounts =
      ([], some (GoError.dyn "database is locked")) :=
  ⟨(GetAvailableAccounts_filter sampleService).1 rfl,
   (GetAvailableAccounts_filter ⟨failingStorage, fun _ => true⟩).2 _ rfl⟩

/-- C9: `nameValid(name, id)` is true if and only if `validation.NameValid`
accepts the name and either the lookup of the name in storage reports
ErrNoRecord, or it returns an account with a nil error and `id` is not nil and
equals that account's ID.  So it is false when the name belongs to an account
with another ID, when the name is in use and `id` is nil, and when storage
reports any error other than ErrNoRecord. -/
theorem nameValid_iff (service : Service) (accountName : String) (accountId : Option Int) :
    (service.nameValid accountName accountId = true ↔
      service.NameValid accountName = true ∧
      ((service.storage.GetOneAccountByName accountName).2 = some ErrNoRecord ∨
        ((service.storage.GetOneAccountByName accountName).2 = none ∧
          accountId = some (service.storage.GetOneAccountByName accountName).1.ID))) ∧
    ((service.storage.GetOneAccountByName accountName).2 = none →
      (∀ id, accountId = some id →
        id ≠ (service.storage.GetOneAccountByName accountName).1.ID →
        service.nameValid accountName accountId = false) ∧
      (accountId = none → service.nameValid accountName accountId = false)) ∧
    (∀ e, (service.storage.GetOneAccountByName accountName).2 = some e → e ≠ ErrNoRecord →
      service.nameValid accountName accountId = false) := by
  unfold Service.nameValid
  cases hv : service.NameValid accountName
  · simp
  · rcases hq : service.storage.GetOneAccountByName accountName with ⟨account, err⟩
    cases err with
    | none =>
      cases accountId with
      | none => simp [ErrNoRecord]
      | some id =>
        simp only [Bool.not_true, Bool.false_eq_true, if_false, true_and, reduceCtorEq,
          ne_eq, not_true_eq_false, not_false_eq_true, Option.some.injEq, false_or,
          Option.some.injEq, forall_eq', IsEmpty.forall_iff, implies_true, and_true]
        refine ⟨?_, ?_⟩
        · by_cases h : id = account.ID
          · simp [h]
          · simp [h, Ne.symm h]
        · intro _ h
          simp [Ne.symm h]
    | some e =>
      by_cases he : e = ErrNoRecord
      · simp [he]
      · simp [he]

/-- Witness of C9 at the sample service: a free name, the name of the account
being edited, the name of another account, a name in use with a nil id, and a
storage error. -/
theorem nameValid_iff_witness :
    sampleService.nameValid "fresh" none = true ∧
    sampleService.nameValid "main" (some 1) = true ∧
    sampleService.nameValid "main" (some 2) = false ∧
    sampleService.nameValid "main" none = false ∧
    sampleService.nameValid "locked" (some 1) = false :=
  ⟨(nameValid_iff sampleService "fresh" none).1.2 ⟨rfl, Or.inl rfl⟩,
   (nameValid_iff sampleService "main" (some 1)).1.2 ⟨rfl, Or.inr ⟨rfl, rfl⟩⟩,
   ((nameValid_iff sampleService "main" (some 2)).2.1 rfl).1 2 rfl (by decide),
   ((nameValid_iff sampleService "main" none).2.1 rfl).2 rfl,
   (nameValid_iff sampleService "locked" (some 1)).2.2 _ rfl (by decide)⟩

end acme_accounts

/-! ## Theorems: package auth -/

namespace auth

open datatypes

/-- The string of a UUID is not empty. -/
theorem UUID_String_ne_empty (u : UUID) : u.String ≠ "" := by
  intro h
  have h2 := congrArg String.length h
  simp [UUID.String, hexOf, String.length] at h2

/-- C10: for every session manager and session, if the session's UUID string
is not a key of the map, `new` returns nil and the map afterwards is the old
map with that one entry added, every other key as before; if the UUID string
is already a key, `new` returns errAddExisting, the entry under that key is
not overwritten (it still holds the existing value, unless it was removed
because the existing value has the session's Subject), every entry that
remains is an entry of the old map, and no remaining session has the given
session's Subject. -/
theorem new_adds_or_closes_subject (sm : sessionManager) (session : sessionClaims) :
    (sm.sessions.m session.UUID.String = none →
      (sm.new session).1 = none ∧
      ∀ k, (sm.new session).2.sessions.m k =
        if k = session.UUID.String then some session else sm.sessions.m k) ∧
    (∀ existing, sm.sessions.m session.UUID.String = some existing →
      (sm.new session).1 = some errAddExisting ∧
      (sm.new session).2.sessions.m session.UUID.String =
        (if existing.Subject = session.Subject then none else some existing) ∧
      ∀ k v, (sm.new session).2.sessions.m k = some v →
        sm.sessions.m k = some v ∧ v.Subject ≠ session.Subject) := by
  have hne := UUID_String_ne_empty session.UUID
  refine ⟨?_, ?_⟩
  · intro h
    simp [sessionManager.new, hne, SafeMap.Add, h]
  · intro existing h
    simp only [sessionManager.new, hne, if_false, SafeMap.Add, h, if_true,
      sessionManager.closeSubject, SafeMap.DeleteFunc]
    refine ⟨trivial, ?_, ?_⟩
    · simp only [h, decide_eq_true_eq]
    · intro k v hk
      cases hm : sm.sessions.m k with
      | none => simp [hm] at hk
      | some w =>
        simp only [hm, decide_eq_true_eq] at hk
        split_ifs at hk with hs
        simp only [Option.some.injEq] at hk
        subst hk
        exact ⟨rfl, hs⟩

/-- Witness of C10: a new session of alice is added to the empty manager, and
a session of mallory under the UUID of bob's session is refused, with bob's
entry as it was. -/
theorem new_adds_or_closes_subject_witness :
    ((newSessionManager.new aliceSession).1 = none ∧
      ∀ k, (newSessionManager.new aliceSession).2.sessions.m k =
        if k = aliceSession.UUID.String then some aliceSession
        else newSessionManager.sessions.m k) ∧
    ((sampleManager.new malloryReplay).1 = some errAddExisting ∧
      (sampleManager.new malloryReplay).2.sessions.m malloryReplay.UUID.String =
        (if bobSession.Subject = malloryReplay.Subject then none else some bobSession) ∧
      ∀ k v, (sampleManager.new malloryReplay).2.sessions.m k = some v →
        sampleManager.sessions.m k = some v ∧ v.Subject ≠ malloryReplay.Subject) :=
  ⟨(new_adds_or_closes_subject newSessionManager aliceSession).1 rfl,
   (new_adds_or_closes_subject sampleManager malloryReplay).2 bobSession (by decide)⟩

/-- The entries of the map after `closeSubject`: the old entries whose
Subject is not the given one. -/
theorem closeSubject_m (sm : sessionManager) (sc : sessionClaims) (k : String)
    (v : sessionClaims) :
    (sm.closeSubject sc).sessions.m k = some v ↔
      sm.sessions.m k = some v ∧ v.Subject ≠ sc.Subject := by
  simp only [sessionManager.closeSubject, SafeMap.DeleteFunc]
  cases hm : sm.sessions.m k with
  | none => simp
  | some w =>
    simp only [decide_eq_true_eq, Option.some.injEq]
    split_ifs with hs
    · constructor
      · intro h
        exact absurd h (by simp)
      · rintro ⟨h1, h2⟩
        subst h1
        exact absurd hs h2
    · constructor
      · intro h
        simp only [Option.some.injEq] at h
        subst h
        exact ⟨rfl, hs⟩
      · rintro ⟨h1, _⟩
        rw [h1]

/-- `close` of a session whose UUID string is a key. -/
theorem close_of_key (sm : sessionManager) (session v : sessionClaims)
    (h : sm.sessions.m session.UUID.String = some v) :
    sm.close session =
      (none, ⟨⟨fun k => if k = session.UUID.String then none else sm.sessions.m k⟩⟩) := by
  simp [sessionManager.close, UUID_String_ne_empty, SafeMap.DeleteKey, h]

/-- `close` of a session whose UUID string is not a key. -/
theorem close_of_not_key (sm : sessionManager) (session : sessionClaims)
    (h : sm.sessions.m session.UUID.String = none) :
    sm.close session = (some errMapKeyDoesntExist, sm.closeSubject session) := by
  simp [sessionManager.close, UUID_String_ne_empty, SafeMap.DeleteKey, h]

/-- `new` of a session whose UUID string is not a key. -/
theorem new_of_not_key (sm : sessionManager) (session : sessionClaims)
    (h : sm.sessions.m session.UUID.String = none) :
    sm.new session =
      (none, ⟨⟨fun k => if k = session.UUID.String then some session
        else sm.sessions.m k⟩⟩) := by
  simp [sessionManager.new, UUID_String_ne_empty, SafeMap.Add, h]

/-- `new` of a session whose UUID string is a key. -/
theorem new_of_key (sm : sessionManager) (session v : sessionClaims)
    (h : sm.sessions.m session.UUID.String = some v) :
    sm.new session = (some errAddExisting, sm.closeSubject session) := by
  simp [sessionManager.new, UUID_String_ne_empty, SafeMap.Add, h]

/-- C11: for every session manager and session, if the session's UUID string
is a key of the map, `close` returns nil and removes exactly that entry, every
other entry (other sessions of the same Subject included) as before; if it is
not a key, `close` returns a non-nil error, afterwards no session of the map
has the given session's Subject, every session of another Subject is as
before, and nothing was added. -/
theorem close_removes_or_closes_subject (sm : sessionManager) (session : sessionClaims) :
    (∀ v, sm.sessions.m session.UUID.String = some v →
      (sm.close session).1 = none ∧
      ∀ k, (sm.close session).2.sessions.m k =
        if k = session.UUID.String then none else sm.sessions.m k) ∧
    (sm.sessions.m session.UUID.String = none →
      (sm.close session).1 ≠ none ∧
      (∀ k v, (sm.close session).2.sessions.m k = some v → v.Subject ≠ session.Subject) ∧
      (∀ k v, sm.sessions.m k = some v → v.Subject ≠ session.Subject →
        (sm.close session).2.sessions.m k = some v) ∧
      (∀ k v, (sm.close session).2.sessions.m k = some v → sm.sessions.m k = some v)) := by
  refine ⟨?_, ?_⟩
  · intro v h
    rw [close_of_key sm session v h]
    exact ⟨rfl, fun _ => rfl⟩
  · intro h
    rw [close_of_not_key sm session h]
    refine ⟨by simp, ?_, ?_, ?_⟩
    · intro k v hk
      exact ((closeSubject_m sm session k v).1 hk).2
    · intro k v hk hs
      exact (closeSubject_m sm session k v).2 ⟨hk, hs⟩
    · intro k v hk
      exact ((closeSubject_m sm session k v).1 hk).1

/-- Witness of C11: closing the first session of alice leaves her second
session and bob's; closing a session of carol that is not in the map is an
error and leaves bob's session. -/
theorem close_removes_or_closes_subject_witness :
    ((sampleManager.close aliceSession).1 = none ∧
      ∀ k, (sampleManager.close aliceSession).2.sessions.m k =
        if k = aliceSession.UUID.String then none else sampleManager.sessions.m k) ∧
    (sampleManager.close carolStale).1 ≠ none ∧
    (sampleManager.close carolStale).2.sessions.m bobSession.UUID.String = some bobSession :=
  ⟨(close_removes_or_closes_subject sampleManager aliceSession).1 aliceSession (by decide),
   ((close_removes_or_closes_subject sampleManager carolStale).2 (by decide)).1,
   ((close_removes_or_closes_subject sampleManager carolStale).2 (by decide)).2.2.1
     _ _ (by decide) (by decide)⟩

/-- C12, the claim refuted: a refresh that fails does not remove the sessions
of both subjects.  When the old session (of carol) is not in the map, the
session of bob, the new session's Subject, is still there; and when the new
session (of mallory) carries a UUID that is still a key, the second session of
alice, the old session's Subject, is still there. -/
theorem refresh_error_keeps_other_subject :
    ((sampleManager.refresh carolStale bobNext).1 ≠ none ∧
      (sampleManager.refresh carolStale bobNext).2.sessions.m bobSession.UUID.String =
        some bobSession ∧
      bobSession.Subject = bobNext.Subject) ∧
    ((sampleManager.refresh aliceSession malloryReplay).1 ≠ none ∧
      (sampleManager.refresh aliceSession malloryReplay).2.sessions.m aliceSecond.UUID.String =
        some aliceSecond ∧
      aliceSecond.Subject = aliceSession.Subject) := by
  decide

/-- C12 as amended: `refresh` returns nil if and only if the old session's
UUID string is a key and the new session's UUID string is not a key once the
old entry is removed, and then the map is the old map with the old entry
removed and the new entry added.  When it fails because the old UUID is not a
key, no session with the old session's Subject remains; when it fails because
the new UUID is still a key, the old entry is removed and no session with the
new session's Subject remains; so when the two sessions have the same
Subject, no session of that Subject remains after an error. -/
theorem refresh_replaces_or_closes_subject (sm : sessionManager)
    (oldSession newSession : sessionClaims) :
    ((sm.refresh oldSession newSession).1 = none ↔
      (∃ v, sm.sessions.m oldSession.UUID.String = some v) ∧
      (if newSession.UUID.String = oldSession.UUID.String then none
        else sm.sessions.m newSession.UUID.String) = none) ∧
    ((sm.refresh oldSession newSession).1 = none →
      ∀ k, (sm.refresh oldSession newSession).2.sessions.m k =
        if k = newSession.UUID.String then some newSession
        else if k = oldSession.UUID.String then none else sm.sessions.m k) ∧
    (sm.sessions.m oldSession.UUID.String = none →
      (sm.refresh oldSession newSession).1 ≠ none ∧
      ∀ k v, (sm.refresh oldSession newSession).2.sessions.m k = some v →
        v.Subject ≠ oldSession.Subject) ∧
    ((∃ v, sm.sessions.m oldSession.UUID.String = some v) →
      (if newSession.UUID.String = oldSession.UUID.String then none
        else sm.sessions.m newSession.UUID.String) ≠ none →
      (sm.refresh oldSession newSession).1 ≠ none ∧
      (sm.refresh oldSession newSession).2.sessions.m oldSession.UUID.String = none ∧
      ∀ k v, (sm.refresh oldSession newSession).2.sessions.m k = some v →
        v.Subject ≠ newSession.Subject) ∧
    ((sm.refresh oldSession newSession).1 ≠ none →
      oldSession.Subject = newSession.Subject →
      ∀ k v, (sm.refresh oldSession newSession).2.sessions.m k = some v →
        v.Subject ≠ oldSession.Subject) := by
  cases ho : sm.sessions.m oldSession.UUID.String with
  | none =>
    have hr : sm.refresh oldSession newSession =
        (some errMapKeyDoesntExist, sm.closeSubject oldSession) := by
      simp [sessionManager.refresh, close_of_not_key sm oldSession ho]
    rw [hr]
    refine ⟨by simp, by simp, fun _ => ⟨by simp, ?_⟩, ?_, fun _ _ => ?_⟩
    · intro k v hk
      exact ((closeSubject_m sm oldSession k v).1 hk).2
    · rintro ⟨v, hv⟩
      exact absurd hv (by simp)
    · intro k v hk
      exact ((closeSubject_m sm oldSession k v).1 hk).2
  | some vo =>
    have hc := close_of_key sm oldSession vo ho
    cases hn : (if newSession.UUID.String = oldSession.UUID.String then none
        else sm.sessions.m newSession.UUID.String) with
    | none =>
      have hr : sm.refresh oldSession newSession =
          (none, ⟨⟨fun k => if k = newSession.UUID.String then some newSession
            else if k = oldSession.UUID.String then none else sm.sessions.m k⟩⟩) := by
        simp only [sessionManager.refresh, hc]
        rw [new_of_not_key _ newSession hn]
        simp
      rw [hr]
      refine ⟨by simp, fun _ _ => rfl, by simp, by simp, by simp⟩
    | some vn =>
      have hr : sm.refresh oldSession newSession =
          (some errAddExisting,
            sessionManager.closeSubject
              ⟨⟨fun k => if k = oldSession.UUID.String then none else sm.sessions.m k⟩⟩
              newSession) := by
        simp only [sessionManager.refresh, hc]
        rw [new_of_key _ newSession vn hn]
        simp
      rw [hr]
      have hrem : ∀ k v,
          (sessionManager.closeSubject
              ⟨⟨fun k => if k = oldSession.UUID.String then none else sm.sessions.m k⟩⟩
              newSession).sessions.m k = some v → v.Subject ≠ newSession.Subject :=
        fun k v hk => ((closeSubject_m _ newSession k v).1 hk).2
      refine ⟨by simp, by simp, by simp, fun _ _ => ⟨by simp, ?_, hrem⟩, fun _ hs => ?_⟩
      · cases hx : (sessionManager.closeSubject
            ⟨⟨fun k => if k = oldSession.UUID.String then none else sm.sessions.m k⟩⟩
            newSession).sessions.m oldSession.UUID.String with
        | none => rfl
        | some x =>
          have := ((closeSubject_m _ newSession _ x).1 hx).1
          simp at this
      · intro k v hk
        rw [hs]
        exact hrem k v hk

/-- Witness of C12 as amended: a refresh of alice's first session by a new
one, a refresh from a session that is not in the map, a refresh to a UUID
that is still a key, and a failed refresh within one Subject. -/
theorem refresh_replaces_or_closes_subject_witness :
    (sampleManager.refresh aliceSession aliceNext).1 = none ∧
    (∀ k, (sampleManager.refresh aliceSession aliceNext).2.sessions.m k =
      if k = aliceNext.UUID.String then some aliceNext
      else if k = aliceSession.UUID.String then none else sampleManager.sessions.m k) ∧
    ((sampleManager.refresh carolStale bobNext).1 ≠ none ∧
      ∀ k v, (sampleManager.refresh carolStale bobNext).2.sessions.m k = some v →
        v.Subject ≠ carolStale.Subject) ∧
    ((sampleManager.refresh aliceSession malloryReplay).1 ≠ none ∧
      (sampleManager.refresh aliceSession malloryReplay).2.sessions.m
        aliceSession.UUID.String = none ∧
      ∀ k v, (sampleManager.refresh aliceSession malloryReplay).2.sessions.m k = some v →
        v.Subject ≠ malloryReplay.Subject) ∧
    (∀ k v, (sampleManager.refresh aliceSession aliceSecond).2.sessions.m k = some v →
      v.Subject ≠ aliceSession.Subject) :=
  ⟨(refresh_replaces_or_closes_subject sampleManager aliceSession aliceNext).1.2
      ⟨⟨aliceSession, by decide⟩, by decide⟩,
   (refresh_replaces_or_closes_subject sampleManager aliceSession aliceNext).2.1 (by decide),
   (refresh_replaces_or_closes_subject sampleManager carolStale bobNext).2.2.1 (by decide),
   (refresh_replaces_or_closes_subject sampleManager aliceSession malloryReplay).2.2.2.1
      ⟨aliceSession, by decide⟩ (by decide),
   (refresh_replaces_or_closes_subject sampleManager aliceSession aliceSecond).2.2.2.2
      (by decide) (by decide)⟩

end auth

/-! ## Theorems: package dns01cloudflare -/

namespace dns01cloudflare

/-- The API identifier of a service that has its API instance. -/
theorem apiIdentifier_done (service : Service) (api : API)
    (h : service.cloudflareApi = some api) : ∃ identifier, service.apiIdentifier = .done identifier := by
  unfold Service.apiIdentifier
  rw [h]
  dsimp only
  split_ifs <;> exact ⟨_, rfl⟩

/-- C13, the claim refuted: for the config that a form submits with the
redacted API token, `NewService` on the config as given succeeds with a
service whose API holds the redacted token, while `UpdateService` returns nil
and leaves in `*service` another service, whose API holds the token of the old
instance. -/
theorem UpdateService_differs_from_NewService_on_given_config :
    NewService sampleEnv sampleApp (some redactedConfig) =
      .done (some ⟨some ⟨"app-logger"⟩, some ⟨"app-client"⟩,
        some { APIToken := "t***a" }, []⟩, none) ∧
    sampleService.UpdateService sampleEnv sampleApp (some redactedConfig) =
      .done (none,
        ⟨some ⟨"app-logger"⟩, some ⟨"app-client"⟩, some { APIToken := "tok-4f1e9a" }, []⟩,
        ⟨["example.com"], none, some "tok-4f1e9a"⟩) ∧
    (⟨some ⟨"app-logger"⟩, some ⟨"app-client"⟩, some { APIToken := "t***a" }, []⟩ : Service) ≠
      ⟨some ⟨"app-logger"⟩, some ⟨"app-client"⟩, some { APIToken := "tok-4f1e9a" }, []⟩ := by
  decide

/-- C13 as amended: `UpdateService` first restores a redacted credential in
the config.  For a service that has its API instance this step finishes, and
the config after it is: the config with the account's global API key
overwritten with the service's API identifier, when the redacted form of that
key is the service's redacted API identifier; else the config with the API
token overwritten with the service's API identifier, when the redacted form
of the token is the service's redacted API identifier; else the config as
given.  With the config after that step: if `NewService` fails,
`UpdateService` returns that error and `*service` is unchanged; if it
succeeds, `UpdateService` returns nil and `*service` is the newly constructed
service. -/
theorem UpdateService_replaces_instance (env : Env) (app : App) (service : Service)
    (cfg : Config) :
    (service.cloudflareApi ≠ none → ∃ cfg2, service.restoreRedacted env cfg = .done cfg2) ∧
    (∀ cfg2, service.restoreRedacted env cfg = .done cfg2 →
      (∀ newServ e, NewService env app (some cfg2) = .done (newServ, some e) →
        service.UpdateService env app (some cfg) = .done (some e, service, cfg2)) ∧
      (∀ newServ, NewService env app (some cfg2) = .done (some newServ, none) →
        service.UpdateService env app (some cfg) = .done (none, newServ, cfg2)) ∧
      (∀ redacted, service.redactedApiIdentifier env = .done redacted →
        (∀ account, cfg.Account = some account → env.Redacted account.GlobalApiKey ≠ redacted) →
        (∀ token, cfg.ApiToken = some token → env.Redacted token ≠ redacted) →
        cfg2 = cfg) ∧
      (∀ redacted identifier, service.redactedApiIdentifier env = .done redacted →
        service.apiIdentifier = .done identifier →
        (∀ account, cfg.Account = some account →
          env.Redacted account.GlobalApiKey = redacted →
          cfg2 = { cfg with Account := some { account with GlobalApiKey := identifier } }) ∧
        (∀ token, cfg.ApiToken = some token → env.Redacted token = redacted →
          (∀ account, cfg.Account = some account →
            env.Redacted account.GlobalApiKey ≠ redacted) →
          cfg2 = { cfg with ApiToken := some identifier }))) := by
  refine ⟨?_, ?_⟩
  · intro hapi
    obtain ⟨api, hapi⟩ := Option.ne_none_iff_exists'.1 hapi
    obtain ⟨identifier, hid⟩ := apiIdentifier_done service api hapi
    unfold Service.restoreRedacted
    simp only [Service.redactedApiIdentifier, hid]
    cases cfg.Account <;> cases cfg.ApiToken <;> dsimp only <;>
      first
        | exact ⟨_, rfl⟩
        | (split_ifs <;> exact ⟨_, rfl⟩)
  · intro cfg2 hr
    refine ⟨?_, ?_, ?_, ?_⟩
    · intro newServ e hn
      simp [Service.UpdateService, hr, hn]
    · intro newServ hn
      simp [Service.UpdateService, hr, hn]
    · intro redacted hred hacc htok
      unfold Service.restoreRedacted at hr
      rw [hred] at hr
      cases ha : cfg.Account with
      | none =>
        cases ht : cfg.ApiToken with
        | none =>
          simp only [ha, ht] at hr
          exact (Run.done.inj hr).symm
        | some token =>
          simp only [ha, ht, htok token ht, if_false] at hr
          exact (Run.done.inj hr).symm
      | some account =>
        cases ht : cfg.ApiToken with
        | none =>
          simp only [ha, ht, hacc account ha, if_false] at hr
          exact (Run.done.inj hr).symm
        | some token =>
          simp only [ha, ht, hacc account ha, htok token ht, if_false] at hr
          exact (Run.done.inj hr).symm
    · intro redacted identifier hred hid
      unfold Service.restoreRedacted at hr
      rw [hred, hid] at hr
      refine ⟨?_, ?_⟩
      · intro account ha hm
        simp only [ha, hm, if_true] at hr
        exact (Run.done.inj hr).symm
      · intro token ht hm hacc
        cases ha : cfg.Account with
        | none =>
          simp only [ha, ht, hm, if_true] at hr
          exact (Run.done.inj hr).symm
        | some account =>
          simp only [ha, ht, hm, hacc account ha, if_true, if_false] at hr
          exact (Run.done.inj hr).symm

/-- Witness of C13 as amended: an update with a new token replaces every
field of the sample service and passes the config on as given; an update
without credentials fails and leaves the service; a redacted API token is
overwritten with the token of the service; and a redacted global API key is
overwritten first, the API token of the same config staying as submitted. -/
theorem UpdateService_replaces_instance_witness :
    (∃ cfg2, sampleService.restoreRedacted sampleEnv freshConfig = .done cfg2) ∧
    sampleService.UpdateService sampleEnv sampleApp (some freshConfig) =
      .done (none,
        ⟨some ⟨"app-logger"⟩, some ⟨"app-client"⟩, some { APIToken := "tok-77c2d0" }, []⟩,
        freshConfig) ∧
    sampleService.UpdateService sampleEnv sampleApp (some emptyConfig) =
      .done (some (GoError.dyn "cloudflare: no credentials"), sampleService, emptyConfig) ∧
    freshConfig = freshConfig ∧
    (⟨["example.com"], none, some "tok-4f1e9a"⟩ : Config) =
      { redactedConfig with ApiToken := some "tok-4f1e9a" } ∧
    (⟨["example.com"], some ⟨"tok-4f1e9a"⟩, some "t***a"⟩ : Config) =
      { redactedAccountConfig with Account := some { GlobalApiKey := "tok-4f1e9a" } } :=
  ⟨(UpdateService_replaces_instance sampleEnv sampleApp sampleService freshConfig).1 (by decide),
   ((UpdateService_replaces_instance sampleEnv sampleApp sampleService freshConfig).2
      freshConfig (by decide)).2.1 _ (by decide),
   ((UpdateService_replaces_instance sampleEnv sampleApp sampleService emptyConfig).2
      emptyConfig (by decide)).1 none _ (by decide),
   ((UpdateService_replaces_instance sampleEnv sampleApp sampleService freshConfig).2
      freshConfig (by decide)).2.2.1 "t***a" (by decide)
      (by intro a h; simp [freshConfig] at h)
      (by intro t h; cases (Option.some.inj h); decide),
   (((UpdateService_replaces_instance sampleEnv sampleApp sampleService redactedConfig).2
      ⟨["example.com"], none, some "tok-4f1e9a"⟩ (by decide)).2.2.2
      "t***a" "tok-4f1e9a" (by decide) (by decide)).2 "t***a" rfl (by decide)
      (by intro a h; simp [redactedConfig] at h),
   (((UpdateService_replaces_instance sampleEnv sampleApp sampleService
      redactedAccountConfig).2
      ⟨["example.com"], some ⟨"tok-4f1e9a"⟩, some "t***a"⟩ (by decide)).2.2.2
      "t***a" "tok-4f1e9a" (by decide) (by decide)).1 ⟨"t***a"⟩ rfl (by decide)⟩

end dns01cloudflare

/-! ## Theorems: package dns01acmedns -/

namespace dns01acmedns

/-- The guarded cases of `NewService` and its result on a config with a host
address: it returns the nil service and errServiceComponent when the config is
nil, when the config has no domains, when the app's logger is nil and when the
app's http client is nil; with all of these present and a host address, it
returns a service with the config's domains, host address and resources; with
all of these present and a nil host address, it panics. -/
theorem NewService_cases (app : App) (cfg : Option Config) :
    ((cfg = none ∨ (∃ c, cfg = some c ∧ c.Domains = []) ∨ app.GetLogger = none ∨
        app.GetHttpClient = none) →
      NewService app cfg = .done (none, some errServiceComponent)) ∧
    (∀ c logger client, cfg = some c → c.Domains ≠ [] → app.GetLogger = some logger →
      app.GetHttpClient = some client →
      (∀ hostAddress, c.HostAddress = some hostAddress →
        NewService app cfg =
          .done (some ⟨some logger, some client, c.Domains, hostAddress, c.Resources⟩, none)) ∧
      (c.HostAddress = none → NewService app cfg = nilDereference)) := by
  refine ⟨?_, ?_⟩
  · intro h
    cases cfg with
    | none => rfl
    | some c =>
      simp only [NewService]
      by_cases hd : c.Domains = []
      · simp [hd]
      · have hlen : ¬ c.Domains.length ≤ 0 := by
          simp [List.length_eq_zero, hd]
        rcases h with h | ⟨c2, h, hd2⟩ | h | h
        · exact absurd h (by simp)
        · cases (Option.some.inj h)
          exact absurd hd2 hd
        · simp [hlen, h]
        · simp only [hlen, if_false, h, if_true]
          split_ifs <;> rfl
  · intro c logger client hc hd hl hh
    subst hc
    have hlen : ¬ c.Domains.length ≤ 0 := by
      simp [List.length_eq_zero, hd]
    refine ⟨?_, ?_⟩
    · intro hostAddress ha
      simp [NewService, hlen, hl, hh, ha]
    · intro ha
      simp [NewService, hlen, hl, hh, ha]

/-- C14, the code at the failing input: with a logger, an http client, and a
config that has a domain and a nil `HostAddress`, no guard of `NewService`
applies and it stops with the panic of a nil pointer dereference instead of
returning a service. -/
theorem NewService_panics_without_host_address :
    sampleApp.GetLogger ≠ none ∧ sampleApp.GetHttpClient ≠ none ∧
    configWithoutAddress.Domains ≠ [] ∧ configWithoutAddress.HostAddress = none ∧
    NewService sampleApp (some configWithoutAddress) =
      .panic "runtime error: invalid memory address or nil pointer dereference" := by
  decide

end dns01acmedns
